import Mathlib

/-!
Verification of the pybmd wrapper layer (`src/pybmd/timeline.py` and
`src/pybmd/media_storage.py`) against its natural-language specification.

The wrapper classes hold one opaque handle obtained from the host
application's scripting bridge and forward each method call to the handle's
same-named operation. The embedding models Python values with `PyVal`, the
external scripting engine with `Engine` (a function from receiver handle,
operation name and positional arguments to a result or a raised exception),
and each wrapper method as a Lean function returning the result, the exact
list of delegated calls the method body performs, and the post-state of the
wrapper instance (the instance after the body ran; the bodies contain no
attribute assignment, so the post-state is the instance itself).
-/

namespace Pybmd

/-- A Python runtime value, as the wrapper layer passes values around:
`none`/`bool`/`int`/`str` primitives, lists, string-keyed dicts (the shape
`dataclasses.asdict` produces), opaque engine-owned handles, wrapper objects
of this library (a pybmd class instance holding a handle), and a path-like
object (e.g. `pathlib.Path`) that is not a `str` but has a string form. -/
inductive PyVal where
  | none
  | bool (b : Bool)
  | int (n : Int)
  | str (s : String)
  | pyList (xs : List PyVal)
  | pyDict (kvs : List (String × PyVal))
  | handle (id : Nat)
  | wrapper (cls : String) (held : PyVal)
  | pathObj (s : String)

/-- Python's built-in `str()` rendering, for the values the wrappers coerce.
Only the `str` and `pathObj` cases are exercised by the repository's
`str(...)` call sites; the remaining cases follow CPython's conventions
(`None`, `True`/`False`, decimal integers) or stand for an object repr. -/
def pyStrString : PyVal → String
  | .none => "None"
  | .bool true => "True"
  | .bool false => "False"
  | .int n => toString n
  | .str s => s
  | .pyList _ => "<list>"
  | .pyDict _ => "<dict>"
  | .handle n => "<handle " ++ toString n ++ ">"
  | .wrapper c _ => "<" ++ c ++ " object>"
  | .pathObj s => s

/-- The value Python's `str(v)` evaluates to. -/
def pyStr (v : PyVal) : PyVal := .str (pyStrString v)

/-- One delegated call: the receiver handle, the operation name, the
positional arguments, exactly as the wrapper body writes them. -/
abbrev Call := PyVal × String × List PyVal

/-- The external scripting engine: given a receiver handle, an operation
name and positional arguments it returns a value or raises an exception
(the `Except` error carries the raised Python exception object). The engine
is opaque and externally supplied; theorems quantify over it. -/
abbrev Engine := PyVal → String → List PyVal → Except PyVal PyVal

/-- Python iteration over a value returned by a delegated call: a `for` loop
(or list comprehension) over the value maps the loop body over the list's
elements, and raises a `TypeError` of the interpreter's own when the value
is not iterable. -/
def pyIterate {α : Type} (f : PyVal → α) : Except PyVal PyVal → Except PyVal (List α)
  | .ok (.pyList xs) => .ok (xs.map f)
  | .ok _ => .error (.str "TypeError")
  | .error err => .error err

/-- Modelled from the spec: `pybmd/timeline_item.py` is not among the
repository files given; per the spec each wrapper class holds a single
reference to an externally-owned opaque handle. `timeline.py` constructs
`TimelineItem(timeline_item=...)` and reads the attribute
`timeline_item` (line 44), so the held handle is stored in the field
`timeline_item`. -/
structure TimelineItem where
  timeline_item : PyVal

/-- The Python object a `TimelineItem` wrapper is when it is itself passed
as an argument to the engine: the wrapper object, not the held handle. -/
def TimelineItem.toPyVal (t : TimelineItem) : PyVal :=
  .wrapper "TimelineItem" t.timeline_item

/-- Modelled from the spec: `pybmd/gallery_still.py` is not among the
repository files given; per the spec it is a wrapper holding a single
opaque handle, constructed as `GalleryStill(handle)` in `timeline.py`. -/
structure GalleryStill where
  gallery_still : PyVal

/-- Modelled from the spec: `pybmd/media_pool_item.py` is not among the
repository files given; per the spec it is a wrapper holding a single
opaque handle, constructed as `MediaPoolItem(handle)` in
`media_storage.py`. -/
structure MediaPoolItem where
  media_pool_item : PyVal

/-- The Python object a `MediaPoolItem` wrapper is when passed as an
argument to the engine. -/
def MediaPoolItem.toPyVal (m : MediaPoolItem) : PyVal :=
  .wrapper "MediaPoolItem" m.media_pool_item

/-- `ImportOptions` dataclass of `timeline.py` (lines 13-30), with the
source's field order and default values. -/
structure ImportOptions where
  sourceClipsPath : String := ""
  sourceClipsFolders : String := ""
  autoImportSourceClipsIntoMediaPool : Bool := true
  ignoreFileExtensionsWhenMatching : Bool := false
  linkToSourceCameraFiles : Bool := false
  useSizingInfo : Bool := false
  importMultiChannelAudioTracksAsLinkedGroups : Bool := false
  insertAdditionalTracks : Bool := true
  insertWithOffset : String := "00:00:00:00"

/-- `dataclasses.asdict` on an `ImportOptions`: the fields in declaration
order with their current values. -/
def ImportOptions.asdict (o : ImportOptions) : List (String × PyVal) :=
  [("sourceClipsPath", .str o.sourceClipsPath),
   ("sourceClipsFolders", .str o.sourceClipsFolders),
   ("autoImportSourceClipsIntoMediaPool", .bool o.autoImportSourceClipsIntoMediaPool),
   ("ignoreFileExtensionsWhenMatching", .bool o.ignoreFileExtensionsWhenMatching),
   ("linkToSourceCameraFiles", .bool o.linkToSourceCameraFiles),
   ("useSizingInfo", .bool o.useSizingInfo),
   ("importMultiChannelAudioTracksAsLinkedGroups", .bool o.importMultiChannelAudioTracksAsLinkedGroups),
   ("insertAdditionalTracks", .bool o.insertAdditionalTracks),
   ("insertWithOffset", .str o.insertWithOffset)]

/-- `TrackType` enum of `timeline.py` (lines 33-37). -/
inductive TrackType where
  | AUDIO_TRACK
  | VIDEO_TRACK
  | SUBTITLE_TRACK

/-- The enum member's `.value`. -/
def TrackType.value : TrackType → String
  | .AUDIO_TRACK => "audio"
  | .VIDEO_TRACK => "video"
  | .SUBTITLE_TRACK => "subtitle"

/-- The accumulator loop of `timeline_item_class_list_transfer`
(`timeline.py` lines 41-46): start from an empty list and append each
wrapper's `timeline_item` attribute in order. -/
def transferLoop (acc : List PyVal) : List TimelineItem → List PyVal
  | [] => acc
  | t :: rest => transferLoop (acc ++ [t.timeline_item]) rest

/-- `timeline_item_class_list_transfer` (`timeline.py` lines 40-46). -/
def timeline_item_class_list_transfer (timeline_item_list : List TimelineItem) : List PyVal :=
  transferLoop [] timeline_item_list

/-- `Timeline.__init__` (`timeline.py` lines 52-53): the instance state is
the single attribute `timeline` holding the handle given at construction. -/
structure Timeline where
  timeline : PyVal

/-- The result of running one `Timeline` method body: the returned value or
raised exception, the delegated calls the body performed in order, and the
instance's state after the body ran. -/
abbrev TRes (α : Type) := Except PyVal α × List Call × Timeline

/-- `Timeline.add_marker` (`timeline.py` line 71). -/
def Timeline.add_marker (e : Engine) (self : Timeline)
    (frame_id color name note duration custom_data : PyVal) : TRes PyVal :=
  (e self.timeline "AddMarker" [frame_id, color, name, note, duration, custom_data],
   [(self.timeline, "AddMarker", [frame_id, color, name, note, duration, custom_data])], self)

/-- `Timeline.apply_grade_from_drx` (`timeline.py` line 84): the path is
coerced with `str(...)`; the `timeline_items` list is forwarded as given,
i.e. the wrapper objects themselves. -/
def Timeline.apply_grade_from_drx (e : Engine) (self : Timeline)
    (path grade_mode : PyVal) (timeline_items : List TimelineItem) : TRes PyVal :=
  (e self.timeline "ApplyGradeFromDRX"
     [pyStr path, grade_mode, .pyList (timeline_items.map TimelineItem.toPyVal)],
   [(self.timeline, "ApplyGradeFromDRX",
     [pyStr path, grade_mode, .pyList (timeline_items.map TimelineItem.toPyVal)])], self)

/-- `Timeline.create_compound_clip` (`timeline.py` line 96): the held
handles are extracted with `timeline_item_class_list_transfer` and the
returned handle is wrapped in a `TimelineItem`. -/
def Timeline.create_compound_clip (e : Engine) (self : Timeline)
    (timeline_items : List TimelineItem) (clipinfo : PyVal) : TRes TimelineItem :=
  ((e self.timeline "CreateCompoundClip"
      [.pyList (timeline_item_class_list_transfer timeline_items), clipinfo]).map TimelineItem.mk,
   [(self.timeline, "CreateCompoundClip",
     [.pyList (timeline_item_class_list_transfer timeline_items), clipinfo])], self)

/-- `Timeline.create_fusion_clip` (`timeline.py` line 107). -/
def Timeline.create_fusion_clip (e : Engine) (self : Timeline)
    (timeline_items : List TimelineItem) : TRes TimelineItem :=
  ((e self.timeline "CreateFusionClip"
      [.pyList (timeline_item_class_list_transfer timeline_items)]).map TimelineItem.mk,
   [(self.timeline, "CreateFusionClip",
     [.pyList (timeline_item_class_list_transfer timeline_items)])], self)

/-- `Timeline.delete_marker_at_frame` (`timeline.py` line 111). -/
def Timeline.delete_marker_at_frame (e : Engine) (self : Timeline) (frame_num : PyVal) : TRes PyVal :=
  (e self.timeline "DeleteMarkerAtFrame" [frame_num],
   [(self.timeline, "DeleteMarkerAtFrame", [frame_num])], self)

/-- `Timeline.delete_marker_by_custom_data` (`timeline.py` line 115). -/
def Timeline.delete_marker_by_custom_data (e : Engine) (self : Timeline) (custom_data : PyVal) : TRes PyVal :=
  (e self.timeline "DeleteMarkerByCustomData" [custom_data],
   [(self.timeline, "DeleteMarkerByCustomData", [custom_data])], self)

/-- `Timeline.delete_marker_by_color` (`timeline.py` line 121). -/
def Timeline.delete_marker_by_color (e : Engine) (self : Timeline) (color : PyVal) : TRes PyVal :=
  (e self.timeline "DeleteMarkerByColor" [color],
   [(self.timeline, "DeleteMarkerByColor", [color])], self)

/-- `Timeline.duplicate_timeline` (`timeline.py` line 127): the returned
handle is wrapped in a new `Timeline`. -/
def Timeline.duplicate_timeline (e : Engine) (self : Timeline) (timeline_name : PyVal) : TRes Timeline :=
  ((e self.timeline "DuplicateTimeline" [timeline_name]).map Timeline.mk,
   [(self.timeline, "DuplicateTimeline", [timeline_name])], self)

/-- `Timeline.export` (`timeline.py` line 135); named `export_` because
`export` is a Lean keyword. The file name is forwarded as given, with no
`str(...)` coercion. -/
def Timeline.export_ (e : Engine) (self : Timeline)
    (file_name export_type export_subtype : PyVal) : TRes PyVal :=
  (e self.timeline "Export" [file_name, export_type, export_subtype],
   [(self.timeline, "Export", [file_name, export_type, export_subtype])], self)

/-- `Timeline.get_current_clip_thumbnail_image` (`timeline.py` line 141). -/
def Timeline.get_current_clip_thumbnail_image (e : Engine) (self : Timeline) : TRes PyVal :=
  (e self.timeline "GetCurrentClipThumbnailImage" [],
   [(self.timeline, "GetCurrentClipThumbnailImage", [])], self)

/-- `Timeline.get_current_timecode` (`timeline.py` line 147). -/
def Timeline.get_current_timecode (e : Engine) (self : Timeline) : TRes PyVal :=
  (e self.timeline "GetCurrentTimecode" [],
   [(self.timeline, "GetCurrentTimecode", [])], self)

/-- `Timeline.get_current_video_item` (`timeline.py` line 151). -/
def Timeline.get_current_video_item (e : Engine) (self : Timeline) : TRes TimelineItem :=
  ((e self.timeline "GetCurrentVideoItem" []).map TimelineItem.mk,
   [(self.timeline, "GetCurrentVideoItem", [])], self)

/-- `Timeline.get_end_frame` (`timeline.py` line 155). -/
def Timeline.get_end_frame (e : Engine) (self : Timeline) : TRes PyVal :=
  (e self.timeline "GetEndFrame" [],
   [(self.timeline, "GetEndFrame", [])], self)

/-- `Timeline.get_item_list_in_track` (`timeline.py` lines 157-171): the
loop wraps each returned element in a `TimelineItem`. -/
def Timeline.get_item_list_in_track (e : Engine) (self : Timeline)
    (track_type : TrackType) (index : PyVal) : TRes (List TimelineItem) :=
  (pyIterate TimelineItem.mk (e self.timeline "GetItemListInTrack" [.str track_type.value, index]),
   [(self.timeline, "GetItemListInTrack", [.str track_type.value, index])], self)

/-- `Timeline.get_marker_by_custom_data` (`timeline.py` line 175). -/
def Timeline.get_marker_by_custom_data (e : Engine) (self : Timeline) (custom_data : PyVal) : TRes PyVal :=
  (e self.timeline "GetMarkerByCustomData" [custom_data],
   [(self.timeline, "GetMarkerByCustomData", [custom_data])], self)

/-- `Timeline.get_marker_custom_data` (`timeline.py` line 179). -/
def Timeline.get_marker_custom_data (e : Engine) (self : Timeline) (frame_id : PyVal) : TRes PyVal :=
  (e self.timeline "GetMarkerCustomData" [frame_id],
   [(self.timeline, "GetMarkerCustomData", [frame_id])], self)

/-- `Timeline.get_markers` (`timeline.py` line 186). -/
def Timeline.get_markers (e : Engine) (self : Timeline) : TRes PyVal :=
  (e self.timeline "GetMarkers" [],
   [(self.timeline, "GetMarkers", [])], self)

/-- `Timeline.get_name` (`timeline.py` line 190). -/
def Timeline.get_name (e : Engine) (self : Timeline) : TRes PyVal :=
  (e self.timeline "GetName" [],
   [(self.timeline, "GetName", [])], self)

/-- `Timeline.get_setting` (`timeline.py` line 194). -/
def Timeline.get_setting (e : Engine) (self : Timeline) (setting_name : PyVal) : TRes PyVal :=
  (e self.timeline "GetSetting" [setting_name],
   [(self.timeline, "GetSetting", [setting_name])], self)

/-- `Timeline.get_start_frame` (`timeline.py` line 198). -/
def Timeline.get_start_frame (e : Engine) (self : Timeline) : TRes PyVal :=
  (e self.timeline "GetStartFrame" [],
   [(self.timeline, "GetStartFrame", [])], self)

/-- `Timeline.get_track_count` (`timeline.py` line 202). -/
def Timeline.get_track_count (e : Engine) (self : Timeline) (track_type : TrackType) : TRes PyVal :=
  (e self.timeline "GetTrackCount" [.str track_type.value],
   [(self.timeline, "GetTrackCount", [.str track_type.value])], self)

/-- `Timeline.get_track_name` (`timeline.py` line 215): the index is
forwarded as given, with no range check. -/
def Timeline.get_track_name (e : Engine) (self : Timeline)
    (track_type : TrackType) (track_index : PyVal) : TRes PyVal :=
  (e self.timeline "GetTrackName" [.str track_type.value, track_index],
   [(self.timeline, "GetTrackName", [.str track_type.value, track_index])], self)

/-- `Timeline.grab_all_stills` (`timeline.py` lines 217-229): the loop
appends each returned element as it came from the engine, without wrapping
it in a `GalleryStill` (the body reads
`gallery_stills_list.append(gallery_still)`). -/
def Timeline.grab_all_stills (e : Engine) (self : Timeline) (still_frame_source : PyVal) : TRes (List PyVal) :=
  (pyIterate id (e self.timeline "GrabAllStills" [still_frame_source]),
   [(self.timeline, "GrabAllStills", [still_frame_source])], self)

/-- `Timeline.grab_still` (`timeline.py` line 233): the returned handle is
wrapped in a `GalleryStill`. -/
def Timeline.grab_still (e : Engine) (self : Timeline) : TRes GalleryStill :=
  ((e self.timeline "GrabStill" []).map GalleryStill.mk,
   [(self.timeline, "GrabStill", [])], self)

/-- `Timeline.import_into_timeline` (`timeline.py` line 246): the file path
is forwarded as given (no `str(...)` coercion); the options are passed
through `dataclasses.asdict`. -/
def Timeline.import_into_timeline (e : Engine) (self : Timeline)
    (file_path : PyVal) (import_options : ImportOptions) : TRes PyVal :=
  (e self.timeline "ImportIntoTimeline" [file_path, .pyDict import_options.asdict],
   [(self.timeline, "ImportIntoTimeline", [file_path, .pyDict import_options.asdict])], self)

/-- `Timeline.insert_fusion_generator_into_timeline` (`timeline.py` line 250). -/
def Timeline.insert_fusion_generator_into_timeline (e : Engine) (self : Timeline)
    (generator_name : PyVal) : TRes TimelineItem :=
  ((e self.timeline "InsertFusionGeneratorIntoTimeline" [generator_name]).map TimelineItem.mk,
   [(self.timeline, "InsertFusionGeneratorIntoTimeline", [generator_name])], self)

/-- `Timeline.insert_fusion_title_into_timeline` (`timeline.py` line 254). -/
def Timeline.insert_fusion_title_into_timeline (e : Engine) (self : Timeline)
    (title_name : PyVal) : TRes TimelineItem :=
  ((e self.timeline "InsertFusionTitleIntoTimeline" [title_name]).map TimelineItem.mk,
   [(self.timeline, "InsertFusionTitleIntoTimeline", [title_name])], self)

/-- `Timeline.insert_generator_into_timeline` (`timeline.py` line 258). -/
def Timeline.insert_generator_into_timeline (e : Engine) (self : Timeline)
    (generator_name : PyVal) : TRes TimelineItem :=
  ((e self.timeline "InsertGeneratorIntoTimeline" [generator_name]).map TimelineItem.mk,
   [(self.timeline, "InsertGeneratorIntoTimeline", [generator_name])], self)

/-- `Timeline.insert_oFX_generator_into_timeline` (`timeline.py` line 262). -/
def Timeline.insert_oFX_generator_into_timeline (e : Engine) (self : Timeline)
    (generator_name : PyVal) : TRes TimelineItem :=
  ((e self.timeline "InsertOFXGeneratorIntoTimeline" [generator_name]).map TimelineItem.mk,
   [(self.timeline, "InsertOFXGeneratorIntoTimeline", [generator_name])], self)

/-- `Timeline.insert_title_into_timeline` (`timeline.py` line 266). -/
def Timeline.insert_title_into_timeline (e : Engine) (self : Timeline)
    (title_name : PyVal) : TRes TimelineItem :=
  ((e self.timeline "InsertTitleIntoTimeline" [title_name]).map TimelineItem.mk,
   [(self.timeline, "InsertTitleIntoTimeline", [title_name])], self)

/-- `Timeline.set_current_timecode` (`timeline.py` line 270); the source
spells the parameter `tiemcode`. -/
def Timeline.set_current_timecode (e : Engine) (self : Timeline) (tiemcode : PyVal) : TRes PyVal :=
  (e self.timeline "SetCurrentTimecode" [tiemcode],
   [(self.timeline, "SetCurrentTimecode", [tiemcode])], self)

/-- `Timeline.set_name` (`timeline.py` line 274). -/
def Timeline.set_name (e : Engine) (self : Timeline) (timeline_name : PyVal) : TRes PyVal :=
  (e self.timeline "SetName" [timeline_name],
   [(self.timeline, "SetName", [timeline_name])], self)

/-- `Timeline.set_setting` (`timeline.py` line 287). -/
def Timeline.set_setting (e : Engine) (self : Timeline) (setting_name setting_value : PyVal) : TRes PyVal :=
  (e self.timeline "SetSetting" [setting_name, setting_value],
   [(self.timeline, "SetSetting", [setting_name, setting_value])], self)

/-- `Timeline.set_track_name` (`timeline.py` line 300): the index is
forwarded as given, with no range check. -/
def Timeline.set_track_name (e : Engine) (self : Timeline)
    (track_type : TrackType) (track_index name : PyVal) : TRes PyVal :=
  (e self.timeline "SetTrackName" [.str track_type.value, track_index, name],
   [(self.timeline, "SetTrackName", [.str track_type.value, track_index, name])], self)

/-- `Timeline.update_marker_custom_data` (`timeline.py` line 306). -/
def Timeline.update_marker_custom_data (e : Engine) (self : Timeline)
    (frame_id custom_data : PyVal) : TRes PyVal :=
  (e self.timeline "UpdateMarkerCustomData" [frame_id, custom_data],
   [(self.timeline, "UpdateMarkerCustomData", [frame_id, custom_data])], self)

/-- `Timeline.set_start_timecode` (`timeline.py` line 313). -/
def Timeline.set_start_timecode (e : Engine) (self : Timeline) (timecode : PyVal) : TRes PyVal :=
  (e self.timeline "SetStartTimecode" [timecode],
   [(self.timeline, "SetStartTimecode", [timecode])], self)

/-- `Timeline.get_start_timecode` (`timeline.py` line 317). -/
def Timeline.get_start_timecode (e : Engine) (self : Timeline) : TRes PyVal :=
  (e self.timeline "GetStartTimecode" [],
   [(self.timeline, "GetStartTimecode", [])], self)

/-- `Timeline.insert_fusion_composition_into_timeline` (`timeline.py` line 321). -/
def Timeline.insert_fusion_composition_into_timeline (e : Engine) (self : Timeline) : TRes TimelineItem :=
  ((e self.timeline "InsertFusionCompositionIntoTimeline" []).map TimelineItem.mk,
   [(self.timeline, "InsertFusionCompositionIntoTimeline", [])], self)

/-- `Timeline.get_unique_id` (`timeline.py` line 325). -/
def Timeline.get_unique_id (e : Engine) (self : Timeline) : TRes PyVal :=
  (e self.timeline "GetUniqueId" [],
   [(self.timeline, "GetUniqueId", [])], self)

/-- `Timeline.__repr__` (`timeline.py` lines 54-55): the f-string
`f'Timeline:f{self.get_name()}'`, whose literal text between the colon and
the interpolation is the character `f`. -/
def Timeline.repr (e : Engine) (self : Timeline) : TRes PyVal :=
  ((e self.timeline "GetName" []).map (fun v => .str ("Timeline:f" ++ pyStrString v)),
   [(self.timeline, "GetName", [])], self)

/-- `MediaStorage.__init__` stores the single attribute `media_storage`
(`media_storage.py` lines 10-16). -/
structure MediaStorage where
  media_storage : PyVal

/-- The result of running one `MediaStorage` method body. -/
abbrev MRes (α : Type) := Except PyVal α × List Call × MediaStorage

/-- `MediaStorage.__init__` (`media_storage.py` line 16): construction
itself delegates `GetMediaStorage` to the given host-application handle and
stores the returned handle. -/
def MediaStorage.init (e : Engine) (local_davinci : PyVal) :
    Except PyVal MediaStorage × List Call :=
  ((e local_davinci "GetMediaStorage" []).map MediaStorage.mk,
   [(local_davinci, "GetMediaStorage", [])])

/-- `MediaStorage.add_clip_mattes_to_media_pool` (`media_storage.py` line
29): the `MediaPoolItem` argument is forwarded as given, i.e. the wrapper
object itself. -/
def MediaStorage.add_clip_mattes_to_media_pool (e : Engine) (self : MediaStorage)
    (media_pool_item : MediaPoolItem) (paths stero_eye : PyVal) : MRes PyVal :=
  (e self.media_storage "AddClipMattesToMediaPool" [media_pool_item.toPyVal, paths, stero_eye],
   [(self.media_storage, "AddClipMattesToMediaPool", [media_pool_item.toPyVal, paths, stero_eye])], self)

/-- `MediaStorage.add_item_list_to_meida_pool` (`media_storage.py` line
44): the comprehension wraps each returned element in a `MediaPoolItem`;
the delegated operation name is `AddItemListToMediaPool`. -/
def MediaStorage.add_item_list_to_meida_pool (e : Engine) (self : MediaStorage)
    (item_path_list : PyVal) : MRes (List MediaPoolItem) :=
  (pyIterate MediaPoolItem.mk (e self.media_storage "AddItemListToMediaPool" [item_path_list]),
   [(self.media_storage, "AddItemListToMediaPool", [item_path_list])], self)

/-- `MediaStorage.add_timeline_mattes_to_media_pool` (`media_storage.py`
line 60). -/
def MediaStorage.add_timeline_mattes_to_media_pool (e : Engine) (self : MediaStorage)
    (paths : PyVal) : MRes (List MediaPoolItem) :=
  (pyIterate MediaPoolItem.mk (e self.media_storage "AddTimelineMattesToMediaPool" [paths]),
   [(self.media_storage, "AddTimelineMattesToMediaPool", [paths])], self)

/-- `MediaStorage.get_file_list` (`media_storage.py` line 71): the folder
path is coerced with `str(...)`. -/
def MediaStorage.get_file_list (e : Engine) (self : MediaStorage) (folder_path : PyVal) : MRes PyVal :=
  (e self.media_storage "GetFileList" [pyStr folder_path],
   [(self.media_storage, "GetFileList", [pyStr folder_path])], self)

/-- `MediaStorage.get_mounted_volume_list` (`media_storage.py` line 75). -/
def MediaStorage.get_mounted_volume_list (e : Engine) (self : MediaStorage) : MRes PyVal :=
  (e self.media_storage "GetMountedVolumeList" [],
   [(self.media_storage, "GetMountedVolumeList", [])], self)

/-- `MediaStorage.get_sub_folder_list` (`media_storage.py` line 79): the
folder path is coerced with `str(...)`. -/
def MediaStorage.get_sub_folder_list (e : Engine) (self : MediaStorage) (folder_path : PyVal) : MRes PyVal :=
  (e self.media_storage "GetSubFolderList" [pyStr folder_path],
   [(self.media_storage, "GetSubFolderList", [pyStr folder_path])], self)

/-- `MediaStorage.reveal_in_storage` (`media_storage.py` line 83): the path
is coerced with `str(...)`. -/
def MediaStorage.reveal_in_storage (e : Engine) (self : MediaStorage) (path : PyVal) : MRes PyVal :=
  (e self.media_storage "RevealInStorage" [pyStr path],
   [(self.media_storage, "RevealInStorage", [pyStr path])], self)

/-- An engine whose every call succeeds with `None`: a neutral concrete
environment for evaluating wrapper bodies on concrete inputs. -/
def engAny : Engine := fun _ _ _ => .ok .none

/-- An engine whose every call returns a list of two still handles, as
`GrabAllStills` does. -/
def engStillList : Engine := fun _ _ _ => .ok (.pyList [.handle 7, .handle 8])

/-- An engine whose every call returns a single still handle, as
`GrabStill` does. -/
def engStillOne : Engine := fun _ _ _ => .ok (.handle 9)

/-- An engine whose every call returns a list of two timeline-item handles,
as `GetItemListInTrack` does. -/
def engItemList : Engine := fun _ _ _ => .ok (.pyList [.handle 3, .handle 4])

/-- An engine whose every call returns the name string `MyTl`, as `GetName`
does. -/
def engName : Engine := fun _ _ _ => .ok (.str "MyTl")

/-- The accumulator loop of `timeline_item_class_list_transfer` appends the
held handles in order after the accumulator. -/
theorem transferLoop_eq (acc : List PyVal) (l : List TimelineItem) :
    transferLoop acc l = acc ++ l.map TimelineItem.timeline_item := by
  induction l generalizing acc with
  | nil => simp [transferLoop]
  | cons t rest ih => simp [transferLoop, ih]

/-- Mapping a wrapper constructor over a delegated call's result raises
exactly when the call raised, with the same exception. -/
theorem except_map_error_iff {α β : Type} (f : α → β) (r : Except PyVal α) (err : PyVal) :
    r.map f = .error err ↔ r = .error err := by
  cases r <;> simp [Except.map]

/-- Iterating a delegated call's raised exception re-raises it unchanged. -/
theorem pyIterate_error {α : Type} (f : PyVal → α) (err : PyVal) :
    pyIterate f (.error err) = .error err := rfl

/-- Iterating a returned list succeeds with the mapped elements. -/
theorem pyIterate_ok {α : Type} (f : PyVal → α) (xs : List PyVal) :
    pyIterate f (.ok (.pyList xs)) = .ok (xs.map f) := rfl

/-- C9: for every list of TimelineItem wrappers,
`timeline_item_class_list_transfer` returns a list of the same length whose
i-th element is the held handle (the `timeline_item` attribute) of the i-th
input wrapper, preserving order; for the empty list it returns the empty
list. -/
theorem c9_transfer_extracts_held_handles :
    (∀ l : List TimelineItem,
      timeline_item_class_list_transfer l = l.map TimelineItem.timeline_item) ∧
    (∀ l : List TimelineItem,
      (timeline_item_class_list_transfer l).length = l.length) ∧
    (∀ (l : List TimelineItem) (i : Nat),
      (timeline_item_class_list_transfer l)[i]? = (l[i]?).map TimelineItem.timeline_item) ∧
    timeline_item_class_list_transfer [] = [] := by
  have heq : ∀ l : List TimelineItem,
      timeline_item_class_list_transfer l = l.map TimelineItem.timeline_item := by
    intro l
    simpa using transferLoop_eq [] l
  refine ⟨heq, fun l => ?_, fun l i => ?_, rfl⟩
  · rw [heq]; exact List.length_map l TimelineItem.timeline_item
  · rw [heq]; exact List.getElem?_map TimelineItem.timeline_item l i

/-- C8: the options argument forwarded to the underlying `ImportIntoTimeline`
is a dict containing exactly the nine `ImportOptions` fields with their
current values, and a default-constructed `ImportOptions` yields the dict
with the documented default values. -/
theorem c8_import_options_asdict :
    (∀ (e : Engine) (self : Timeline) (file_path : PyVal) (o : ImportOptions),
      (Timeline.import_into_timeline e self file_path o).2.1 =
        [(self.timeline, "ImportIntoTimeline", [file_path, .pyDict o.asdict])]) ∧
    (∀ o : ImportOptions, o.asdict =
      [("sourceClipsPath", .str o.sourceClipsPath),
       ("sourceClipsFolders", .str o.sourceClipsFolders),
       ("autoImportSourceClipsIntoMediaPool", .bool o.autoImportSourceClipsIntoMediaPool),
       ("ignoreFileExtensionsWhenMatching", .bool o.ignoreFileExtensionsWhenMatching),
       ("linkToSourceCameraFiles", .bool o.linkToSourceCameraFiles),
       ("useSizingInfo", .bool o.useSizingInfo),
       ("importMultiChannelAudioTracksAsLinkedGroups", .bool o.importMultiChannelAudioTracksAsLinkedGroups),
       ("insertAdditionalTracks", .bool o.insertAdditionalTracks),
       ("insertWithOffset", .str o.insertWithOffset)]) ∧
    (ImportOptions.asdict {} =
      [("sourceClipsPath", .str ""),
       ("sourceClipsFolders", .str ""),
       ("autoImportSourceClipsIntoMediaPool", .bool true),
       ("ignoreFileExtensionsWhenMatching", .bool false),
       ("linkToSourceCameraFiles", .bool false),
       ("useSizingInfo", .bool false),
       ("importMultiChannelAudioTracksAsLinkedGroups", .bool false),
       ("insertAdditionalTracks", .bool true),
       ("insertWithOffset", .str "00:00:00:00")]) :=
  ⟨fun _ _ _ _ => rfl, fun _ => rfl, rfl⟩

/-- C7: `get_track_name` and `set_track_name` forward every integer track
index to the underlying operation without any range check or rejection —
the forwarding equation holds for every `Int`, including values outside the
documented range, and a concrete out-of-range index still reaches the
engine and yields the engine's answer. -/
theorem c7_no_index_validation :
    (∀ (e : Engine) (self : Timeline) (tt : TrackType) (i : Int),
      Timeline.get_track_name e self tt (.int i) =
        (e self.timeline "GetTrackName" [.str tt.value, .int i],
         [(self.timeline, "GetTrackName", [.str tt.value, .int i])], self)) ∧
    (∀ (e : Engine) (self : Timeline) (tt : TrackType) (i : Int) (name : PyVal),
      Timeline.set_track_name e self tt (.int i) name =
        (e self.timeline "SetTrackName" [.str tt.value, .int i, name],
         [(self.timeline, "SetTrackName", [.str tt.value, .int i, name])], self)) ∧
    (Timeline.get_track_name engName (Timeline.mk (.handle 1)) .VIDEO_TRACK (.int (-3))).1 =
      .ok (.str "MyTl") :=
  ⟨fun _ _ _ _ => rfl, fun _ _ _ _ _ => rfl, rfl⟩

/-- C10: when the handle's `GetName` returns the string `n`, `__repr__`
returns the literal string `Timeline:f` concatenated with `n` — the
character `f` appears verbatim between the colon and the name — and that
string differs from `Timeline:` followed by `n`. -/
theorem c10_repr_stray_f (e : Engine) (self : Timeline) (n : String)
    (h : e self.timeline "GetName" [] = .ok (.str n)) :
    (Timeline.repr e self).1 = .ok (.str ("Timeline:f" ++ n)) ∧
    PyVal.str ("Timeline:f" ++ n) ≠ PyVal.str ("Timeline:" ++ n) := by
  constructor
  · simp [Timeline.repr, h, Except.map, pyStrString]
  · intro hcontra
    have h2 : "Timeline:f" ++ n = "Timeline:" ++ n := by
      injection hcontra
    have h3 := congrArg String.length h2
    rw [String.length_append, String.length_append] at h3
    have h4 : ("Timeline:f").length = 10 := rfl
    have h5 : ("Timeline:").length = 9 := rfl
    rw [h4, h5] at h3
    omega

/-- C10 witness: the theorem applied at a concrete engine whose `GetName`
returns `MyTl`. -/
theorem c10_repr_stray_f_witness :
    (Timeline.repr engName (Timeline.mk (.handle 1))).1 = .ok (.str ("Timeline:f" ++ "MyTl")) ∧
    PyVal.str ("Timeline:f" ++ "MyTl") ≠ PyVal.str ("Timeline:" ++ "MyTl") :=
  c10_repr_stray_f engName (Timeline.mk (.handle 1)) "MyTl" rfl

/-- C1: evaluation at the failing input. `grab_still` and
`get_item_list_in_track` wrap the returned handles (`GalleryStill`,
`TimelineItem`), but `grab_all_stills` returns the handles exactly as
`GrabAllStills` produced them, unwrapped — its loop body appends the raw
element — contradicting its own docstring and `List[GalleryStill]` return
annotation. -/
theorem c1_grab_all_stills_returns_raw_handles :
    (Timeline.grab_all_stills engStillList (Timeline.mk (.handle 1)) (.int 1)).1 =
      .ok [PyVal.handle 7, PyVal.handle 8] ∧
    (Timeline.grab_still engStillOne (Timeline.mk (.handle 1))).1 =
      .ok (GalleryStill.mk (.handle 9)) ∧
    (Timeline.get_item_list_in_track engItemList (Timeline.mk (.handle 1)) .VIDEO_TRACK (.int 1)).1 =
      .ok [TimelineItem.mk (.handle 3), TimelineItem.mk (.handle 4)] :=
  ⟨rfl, rfl, rfl⟩

/-- C2: evaluation at the failing input. `create_compound_clip` forwards
the held handles (through `timeline_item_class_list_transfer`), but
`apply_grade_from_drx` forwards the `TimelineItem` wrapper objects
themselves and `add_clip_mattes_to_media_pool` forwards the
`MediaPoolItem` wrapper object itself, and a wrapper object is not the
handle it holds. -/
theorem c2_wrapper_objects_reach_engine :
    (Timeline.apply_grade_from_drx engAny (Timeline.mk (.handle 1))
        (.str "/g.drx") (.int 0) [TimelineItem.mk (.handle 5)]).2.1 =
      [(.handle 1, "ApplyGradeFromDRX",
        [.str "/g.drx", .int 0, .pyList [.wrapper "TimelineItem" (.handle 5)]])] ∧
    (Timeline.create_compound_clip engAny (Timeline.mk (.handle 1))
        [TimelineItem.mk (.handle 5)] .none).2.1 =
      [(.handle 1, "CreateCompoundClip", [.pyList [.handle 5], .none])] ∧
    (MediaStorage.add_clip_mattes_to_media_pool engAny (MediaStorage.mk (.handle 2))
        (MediaPoolItem.mk (.handle 6)) (.pyList [.str "/m.png"]) .none).2.1 =
      [(.handle 2, "AddClipMattesToMediaPool",
        [.wrapper "MediaPoolItem" (.handle 6), .pyList [.str "/m.png"], .none])] ∧
    PyVal.wrapper "TimelineItem" (.handle 5) ≠ PyVal.handle 5 :=
  ⟨rfl, rfl, rfl, fun hcontra => PyVal.noConfusion hcontra⟩

/-- C3 counterexample: `export` does not coerce its path-like argument to
its string form — at a concrete path-like (non-`str`) input the argument
that reaches the underlying `Export` is the path object itself, which
differs from its string form — refuting the claim that all six listed
methods pass `str(argument)`. -/
theorem c3_export_forwards_path_uncoerced :
    (Timeline.export_ engAny (Timeline.mk (.handle 1))
        (.pathObj "/tmp/sampleExp.drt") (.str "DRT") .none).2.1 =
      [(.handle 1, "Export", [.pathObj "/tmp/sampleExp.drt", .str "DRT", .none])] ∧
    PyVal.pathObj "/tmp/sampleExp.drt" ≠ pyStr (.pathObj "/tmp/sampleExp.drt") :=
  ⟨rfl, fun hcontra => PyVal.noConfusion hcontra⟩

/-- C3 amended: `get_file_list`, `get_sub_folder_list`, `reveal_in_storage`
and `apply_grade_from_drx` pass `str(argument)` (the string form of the
path) to the handle for every input, while `export` and
`import_into_timeline` forward their path argument exactly as given,
without `str(...)` coercion. -/
theorem c3_path_coercion_amended :
    (∀ (e : Engine) (ms : MediaStorage) (p : PyVal),
      (MediaStorage.get_file_list e ms p).2.1 =
        [(ms.media_storage, "GetFileList", [pyStr p])]) ∧
    (∀ (e : Engine) (ms : MediaStorage) (p : PyVal),
      (MediaStorage.get_sub_folder_list e ms p).2.1 =
        [(ms.media_storage, "GetSubFolderList", [pyStr p])]) ∧
    (∀ (e : Engine) (ms : MediaStorage) (p : PyVal),
      (MediaStorage.reveal_in_storage e ms p).2.1 =
        [(ms.media_storage, "RevealInStorage", [pyStr p])]) ∧
    (∀ (e : Engine) (s : Timeline) (p gm : PyVal) (items : List TimelineItem),
      (Timeline.apply_grade_from_drx e s p gm items).2.1 =
        [(s.timeline, "ApplyGradeFromDRX",
          [pyStr p, gm, .pyList (items.map TimelineItem.toPyVal)])]) ∧
    (∀ (e : Engine) (s : Timeline) (fn et est : PyVal),
      (Timeline.export_ e s fn et est).2.1 = [(s.timeline, "Export", [fn, et, est])]) ∧
    (∀ (e : Engine) (s : Timeline) (fp : PyVal) (o : ImportOptions),
      (Timeline.import_into_timeline e s fp o).2.1 =
        [(s.timeline, "ImportIntoTimeline", [fp, .pyDict o.asdict])]) :=
  ⟨fun _ _ _ => rfl, fun _ _ _ => rfl, fun _ _ _ => rfl, fun _ _ _ _ _ => rfl,
   fun _ _ _ _ _ => rfl, fun _ _ _ _ => rfl⟩

/-- C5: each wrapper's only instance state is the single handle stored at
construction — `Timeline.__init__` and `MediaStorage.__init__` store
exactly the handle (for `MediaStorage`, the handle returned by the one
delegated `GetMediaStorage` call) — and no method body modifies the held
handle attribute or creates additional instance state: every method's
post-state equals its pre-state. -/
theorem c5_single_handle_state :
    ∀ (e : Engine) (s : Timeline) (ms : MediaStorage) (a b c d f g : PyVal)
      (tt : TrackType) (items : List TimelineItem) (o : ImportOptions) (mpi : MediaPoolItem),
    (Timeline.mk a).timeline = a ∧
    (MediaStorage.mk a).media_storage = a ∧
    (MediaStorage.init e a).1 = (e a "GetMediaStorage" []).map MediaStorage.mk ∧
    (Timeline.add_marker e s a b c d f g).2.2 = s ∧
    (Timeline.apply_grade_from_drx e s a b items).2.2 = s ∧
    (Timeline.create_compound_clip e s items a).2.2 = s ∧
    (Timeline.create_fusion_clip e s items).2.2 = s ∧
    (Timeline.delete_marker_at_frame e s a).2.2 = s ∧
    (Timeline.delete_marker_by_custom_data e s a).2.2 = s ∧
    (Timeline.delete_marker_by_color e s a).2.2 = s ∧
    (Timeline.duplicate_timeline e s a).2.2 = s ∧
    (Timeline.export_ e s a b c).2.2 = s ∧
    (Timeline.get_current_clip_thumbnail_image e s).2.2 = s ∧
    (Timeline.get_current_timecode e s).2.2 = s ∧
    (Timeline.get_current_video_item e s).2.2 = s ∧
    (Timeline.get_end_frame e s).2.2 = s ∧
    (Timeline.get_item_list_in_track e s tt a).2.2 = s ∧
    (Timeline.get_marker_by_custom_data e s a).2.2 = s ∧
    (Timeline.get_marker_custom_data e s a).2.2 = s ∧
    (Timeline.get_markers e s).2.2 = s ∧
    (Timeline.get_name e s).2.2 = s ∧
    (Timeline.get_setting e s a).2.2 = s ∧
    (Timeline.get_start_frame e s).2.2 = s ∧
    (Timeline.get_track_count e s tt).2.2 = s ∧
    (Timeline.get_track_name e s tt a).2.2 = s ∧
    (Timeline.grab_all_stills e s a).2.2 = s ∧
    (Timeline.grab_still e s).2.2 = s ∧
    (Timeline.import_into_timeline e s a o).2.2 = s ∧
    (Timeline.insert_fusion_generator_into_timeline e s a).2.2 = s ∧
    (Timeline.insert_fusion_title_into_timeline e s a).2.2 = s ∧
    (Timeline.insert_generator_into_timeline e s a).2.2 = s ∧
    (Timeline.insert_oFX_generator_into_timeline e s a).2.2 = s ∧
    (Timeline.insert_title_into_timeline e s a).2.2 = s ∧
    (Timeline.set_current_timecode e s a).2.2 = s ∧
    (Timeline.set_name e s a).2.2 = s ∧
    (Timeline.set_setting e s a b).2.2 = s ∧
    (Timeline.set_track_name e s tt a b).2.2 = s ∧
    (Timeline.update_marker_custom_data e s a b).2.2 = s ∧
    (Timeline.set_start_timecode e s a).2.2 = s ∧
    (Timeline.get_start_timecode e s).2.2 = s ∧
    (Timeline.insert_fusion_composition_into_timeline e s).2.2 = s ∧
    (Timeline.get_unique_id e s).2.2 = s ∧
    (Timeline.repr e s).2.2 = s ∧
    (MediaStorage.add_clip_mattes_to_media_pool e ms mpi a b).2.2 = ms ∧
    (MediaStorage.add_item_list_to_meida_pool e ms a).2.2 = ms ∧
    (MediaStorage.add_timeline_mattes_to_media_pool e ms a).2.2 = ms ∧
    (MediaStorage.get_file_list e ms a).2.2 = ms ∧
    (MediaStorage.get_mounted_volume_list e ms).2.2 = ms ∧
    (MediaStorage.get_sub_folder_list e ms a).2.2 = ms ∧
    (MediaStorage.reveal_in_storage e ms a).2.2 = ms :=
  fun _ _ _ _ _ _ _ _ _ _ _ _ _ =>
  ⟨rfl, rfl, rfl, rfl, rfl, rfl, rfl, rfl, rfl, rfl, rfl, rfl, rfl, rfl, rfl,
   rfl, rfl, rfl, rfl, rfl, rfl, rfl, rfl, rfl, rfl, rfl, rfl, rfl, rfl, rfl,
   rfl, rfl, rfl, rfl, rfl, rfl, rfl, rfl, rfl, rfl, rfl, rfl, rfl, rfl, rfl,
   rfl, rfl, rfl, rfl, rfl⟩

/-- C6: every wrapper-method invocation performs exactly one delegated call
to the corresponding operation of the held handle — the call trace of every
method body is the singleton of that call — and nothing is memoised: two
successive invocations of the same wrapper method (the second run from the
state the first returned) each reach the handle, producing a combined trace
of two calls. -/
theorem c6_exactly_one_delegated_call :
    ∀ (e : Engine) (s : Timeline) (ms : MediaStorage) (a b c d f g : PyVal)
      (tt : TrackType) (items : List TimelineItem) (o : ImportOptions) (mpi : MediaPoolItem),
    (Timeline.add_marker e s a b c d f g).2.1 =
      [(s.timeline, "AddMarker", [a, b, c, d, f, g])] ∧
    (Timeline.apply_grade_from_drx e s a b items).2.1 =
      [(s.timeline, "ApplyGradeFromDRX",
        [pyStr a, b, .pyList (items.map TimelineItem.toPyVal)])] ∧
    (Timeline.create_compound_clip e s items a).2.1 =
      [(s.timeline, "CreateCompoundClip",
        [.pyList (timeline_item_class_list_transfer items), a])] ∧
    (Timeline.create_fusion_clip e s items).2.1 =
      [(s.timeline, "CreateFusionClip",
        [.pyList (timeline_item_class_list_transfer items)])] ∧
    (Timeline.delete_marker_at_frame e s a).2.1 =
      [(s.timeline, "DeleteMarkerAtFrame", [a])] ∧
    (Timeline.delete_marker_by_custom_data e s a).2.1 =
      [(s.timeline, "DeleteMarkerByCustomData", [a])] ∧
    (Timeline.delete_marker_by_color e s a).2.1 =
      [(s.timeline, "DeleteMarkerByColor", [a])] ∧
    (Timeline.duplicate_timeline e s a).2.1 =
      [(s.timeline, "DuplicateTimeline", [a])] ∧
    (Timeline.export_ e s a b c).2.1 = [(s.timeline, "Export", [a, b, c])] ∧
    (Timeline.get_current_clip_thumbnail_image e s).2.1 =
      [(s.timeline, "GetCurrentClipThumbnailImage", [])] ∧
    (Timeline.get_current_timecode e s).2.1 = [(s.timeline, "GetCurrentTimecode", [])] ∧
    (Timeline.get_current_video_item e s).2.1 = [(s.timeline, "GetCurrentVideoItem", [])] ∧
    (Timeline.get_end_frame e s).2.1 = [(s.timeline, "GetEndFrame", [])] ∧
    (Timeline.get_item_list_in_track e s tt a).2.1 =
      [(s.timeline, "GetItemListInTrack", [.str tt.value, a])] ∧
    (Timeline.get_marker_by_custom_data e s a).2.1 =
      [(s.timeline, "GetMarkerByCustomData", [a])] ∧
    (Timeline.get_marker_custom_data e s a).2.1 =
      [(s.timeline, "GetMarkerCustomData", [a])] ∧
    (Timeline.get_markers e s).2.1 = [(s.timeline, "GetMarkers", [])] ∧
    (Timeline.get_name e s).2.1 = [(s.timeline, "GetName", [])] ∧
    (Timeline.get_setting e s a).2.1 = [(s.timeline, "GetSetting", [a])] ∧
    (Timeline.get_start_frame e s).2.1 = [(s.timeline, "GetStartFrame", [])] ∧
    (Timeline.get_track_count e s tt).2.1 =
      [(s.timeline, "GetTrackCount", [.str tt.value])] ∧
    (Timeline.get_track_name e s tt a).2.1 =
      [(s.timeline, "GetTrackName", [.str tt.value, a])] ∧
    (Timeline.grab_all_stills e s a).2.1 = [(s.timeline, "GrabAllStills", [a])] ∧
    (Timeline.grab_still e s).2.1 = [(s.timeline, "GrabStill", [])] ∧
    (Timeline.import_into_timeline e s a o).2.1 =
      [(s.timeline, "ImportIntoTimeline", [a, .pyDict o.asdict])] ∧
    (Timeline.insert_fusion_generator_into_timeline e s a).2.1 =
      [(s.timeline, "InsertFusionGeneratorIntoTimeline", [a])] ∧
    (Timeline.insert_fusion_title_into_timeline e s a).2.1 =
      [(s.timeline, "InsertFusionTitleIntoTimeline", [a])] ∧
    (Timeline.insert_generator_into_timeline e s a).2.1 =
      [(s.timeline, "InsertGeneratorIntoTimeline", [a])] ∧
    (Timeline.insert_oFX_generator_into_timeline e s a).2.1 =
      [(s.timeline, "InsertOFXGeneratorIntoTimeline", [a])] ∧
    (Timeline.insert_title_into_timeline e s a).2.1 =
      [(s.timeline, "InsertTitleIntoTimeline", [a])] ∧
    (Timeline.set_current_timecode e s a).2.1 =
      [(s.timeline, "SetCurrentTimecode", [a])] ∧
    (Timeline.set_name e s a).2.1 = [(s.timeline, "SetName", [a])] ∧
    (Timeline.set_setting e s a b).2.1 = [(s.timeline, "SetSetting", [a, b])] ∧
    (Timeline.set_track_name e s tt a b).2.1 =
      [(s.timeline, "SetTrackName", [.str tt.value, a, b])] ∧
    (Timeline.update_marker_custom_data e s a b).2.1 =
      [(s.timeline, "UpdateMarkerCustomData", [a, b])] ∧
    (Timeline.set_start_timecode e s a).2.1 = [(s.timeline, "SetStartTimecode", [a])] ∧
    (Timeline.get_start_timecode e s).2.1 = [(s.timeline, "GetStartTimecode", [])] ∧
    (Timeline.insert_fusion_composition_into_timeline e s).2.1 =
      [(s.timeline, "InsertFusionCompositionIntoTimeline", [])] ∧
    (Timeline.get_unique_id e s).2.1 = [(s.timeline, "GetUniqueId", [])] ∧
    (Timeline.repr e s).2.1 = [(s.timeline, "GetName", [])] ∧
    (MediaStorage.init e a).2 = [(a, "GetMediaStorage", [])] ∧
    (MediaStorage.add_clip_mattes_to_media_pool e ms mpi a b).2.1 =
      [(ms.media_storage, "AddClipMattesToMediaPool", [mpi.toPyVal, a, b])] ∧
    (MediaStorage.add_item_list_to_meida_pool e ms a).2.1 =
      [(ms.media_storage, "AddItemListToMediaPool", [a])] ∧
    (MediaStorage.add_timeline_mattes_to_media_pool e ms a).2.1 =
      [(ms.media_storage, "AddTimelineMattesToMediaPool", [a])] ∧
    (MediaStorage.get_file_list e ms a).2.1 =
      [(ms.media_storage, "GetFileList", [pyStr a])] ∧
    (MediaStorage.get_mounted_volume_list e ms).2.1 =
      [(ms.media_storage, "GetMountedVolumeList", [])] ∧
    (MediaStorage.get_sub_folder_list e ms a).2.1 =
      [(ms.media_storage, "GetSubFolderList", [pyStr a])] ∧
    (MediaStorage.reveal_in_storage e ms a).2.1 =
      [(ms.media_storage, "RevealInStorage", [pyStr a])] ∧
    (Timeline.get_markers e s).2.1 ++
        (Timeline.get_markers e (Timeline.get_markers e s).2.2).2.1 =
      [(s.timeline, "GetMarkers", []), (s.timeline, "GetMarkers", [])] ∧
    (MediaStorage.get_sub_folder_list e ms a).2.1 ++
        (MediaStorage.get_sub_folder_list e
          (MediaStorage.get_sub_folder_list e ms a).2.2 a).2.1 =
      [(ms.media_storage, "GetSubFolderList", [pyStr a]),
       (ms.media_storage, "GetSubFolderList", [pyStr a])] :=
  fun _ _ _ _ _ _ _ _ _ _ _ _ _ =>
  ⟨rfl, rfl, rfl, rfl, rfl, rfl, rfl, rfl, rfl, rfl, rfl, rfl, rfl, rfl, rfl,
   rfl, rfl, rfl, rfl, rfl, rfl, rfl, rfl, rfl, rfl, rfl, rfl, rfl, rfl, rfl,
   rfl, rfl, rfl, rfl, rfl, rfl, rfl, rfl, rfl, rfl, rfl, rfl, rfl, rfl, rfl,
   rfl, rfl, rfl, rfl, rfl⟩

/-- C4: the wrappers raise no exception of their own and catch none: for
every method and every input, the method raises exactly when the single
delegated call raises, and the exception that propagates is the one the
engine raised, untranslated. For pass-through and handle-wrapping methods
this holds for every engine outright; for the four methods that iterate
over a returned list, a raised exception propagates unchanged and a
returned list (the shape the underlying list-valued operations produce)
raises nothing. -/
theorem c4_exceptions_propagate_unchanged :
    ∀ (e : Engine) (s : Timeline) (ms : MediaStorage) (a b c d f g : PyVal)
      (tt : TrackType) (items : List TimelineItem) (o : ImportOptions)
      (mpi : MediaPoolItem) (err : PyVal) (xs : List PyVal),
    ((Timeline.add_marker e s a b c d f g).1 = .error err ↔
      e s.timeline "AddMarker" [a, b, c, d, f, g] = .error err) ∧
    ((Timeline.apply_grade_from_drx e s a b items).1 = .error err ↔
      e s.timeline "ApplyGradeFromDRX"
        [pyStr a, b, .pyList (items.map TimelineItem.toPyVal)] = .error err) ∧
    ((Timeline.create_compound_clip e s items a).1 = .error err ↔
      e s.timeline "CreateCompoundClip"
        [.pyList (timeline_item_class_list_transfer items), a] = .error err) ∧
    ((Timeline.create_fusion_clip e s items).1 = .error err ↔
      e s.timeline "CreateFusionClip"
        [.pyList (timeline_item_class_list_transfer items)] = .error err) ∧
    ((Timeline.delete_marker_at_frame e s a).1 = .error err ↔
      e s.timeline "DeleteMarkerAtFrame" [a] = .error err) ∧
    ((Timeline.delete_marker_by_custom_data e s a).1 = .error err ↔
      e s.timeline "DeleteMarkerByCustomData" [a] = .error err) ∧
    ((Timeline.delete_marker_by_color e s a).1 = .error err ↔
      e s.timeline "DeleteMarkerByColor" [a] = .error err) ∧
    ((Timeline.duplicate_timeline e s a).1 = .error err ↔
      e s.timeline "DuplicateTimeline" [a] = .error err) ∧
    ((Timeline.export_ e s a b c).1 = .error err ↔
      e s.timeline "Export" [a, b, c] = .error err) ∧
    ((Timeline.get_current_clip_thumbnail_image e s).1 = .error err ↔
      e s.timeline "GetCurrentClipThumbnailImage" [] = .error err) ∧
    ((Timeline.get_current_timecode e s).1 = .error err ↔
      e s.timeline "GetCurrentTimecode" [] = .error err) ∧
    ((Timeline.get_current_video_item e s).1 = .error err ↔
      e s.timeline "GetCurrentVideoItem" [] = .error err) ∧
    ((Timeline.get_end_frame e s).1 = .error err ↔
      e s.timeline "GetEndFrame" [] = .error err) ∧
    (e s.timeline "GetItemListInTrack" [.str tt.value, a] = .error err →
      (Timeline.get_item_list_in_track e s tt a).1 = .error err) ∧
    (e s.timeline "GetItemListInTrack" [.str tt.value, a] = .ok (.pyList xs) →
      (Timeline.get_item_list_in_track e s tt a).1 = .ok (xs.map TimelineItem.mk)) ∧
    ((Timeline.get_marker_by_custom_data e s a).1 = .error err ↔
      e s.timeline "GetMarkerByCustomData" [a] = .error err) ∧
    ((Timeline.get_marker_custom_data e s a).1 = .error err ↔
      e s.timeline "GetMarkerCustomData" [a] = .error err) ∧
    ((Timeline.get_markers e s).1 = .error err ↔
      e s.timeline "GetMarkers" [] = .error err) ∧
    ((Timeline.get_name e s).1 = .error err ↔
      e s.timeline "GetName" [] = .error err) ∧
    ((Timeline.get_setting e s a).1 = .error err ↔
      e s.timeline "GetSetting" [a] = .error err) ∧
    ((Timeline.get_start_frame e s).1 = .error err ↔
      e s.timeline "GetStartFrame" [] = .error err) ∧
    ((Timeline.get_track_count e s tt).1 = .error err ↔
      e s.timeline "GetTrackCount" [.str tt.value] = .error err) ∧
    ((Timeline.get_track_name e s tt a).1 = .error err ↔
      e s.timeline "GetTrackName" [.str tt.value, a] = .error err) ∧
    (e s.timeline "GrabAllStills" [a] = .error err →
      (Timeline.grab_all_stills e s a).1 = .error err) ∧
    (e s.timeline "GrabAllStills" [a] = .ok (.pyList xs) →
      (Timeline.grab_all_stills e s a).1 = .ok xs) ∧
    ((Timeline.grab_still e s).1 = .error err ↔
      e s.timeline "GrabStill" [] = .error err) ∧
    ((Timeline.import_into_timeline e s a o).1 = .error err ↔
      e s.timeline "ImportIntoTimeline" [a, .pyDict o.asdict] = .error err) ∧
    ((Timeline.insert_fusion_generator_into_timeline e s a).1 = .error err ↔
      e s.timeline "InsertFusionGeneratorIntoTimeline" [a] = .error err) ∧
    ((Timeline.insert_fusion_title_into_timeline e s a).1 = .error err ↔
      e s.timeline "InsertFusionTitleIntoTimeline" [a] = .error err) ∧
    ((Timeline.insert_generator_into_timeline e s a).1 = .error err ↔
      e s.timeline "InsertGeneratorIntoTimeline" [a] = .error err) ∧
    ((Timeline.insert_oFX_generator_into_timeline e s a).1 = .error err ↔
      e s.timeline "InsertOFXGeneratorIntoTimeline" [a] = .error err) ∧
    ((Timeline.insert_title_into_timeline e s a).1 = .error err ↔
      e s.timeline "InsertTitleIntoTimeline" [a] = .error err) ∧
    ((Timeline.set_current_timecode e s a).1 = .error err ↔
      e s.timeline "SetCurrentTimecode" [a] = .error err) ∧
    ((Timeline.set_name e s a).1 = .error err ↔
      e s.timeline "SetName" [a] = .error err) ∧
    ((Timeline.set_setting e s a b).1 = .error err ↔
      e s.timeline "SetSetting" [a, b] = .error err) ∧
    ((Timeline.set_track_name e s tt a b).1 = .error err ↔
      e s.timeline "SetTrackName" [.str tt.value, a, b] = .error err) ∧
    ((Timeline.update_marker_custom_data e s a b).1 = .error err ↔
      e s.timeline "UpdateMarkerCustomData" [a, b] = .error err) ∧
    ((Timeline.set_start_timecode e s a).1 = .error err ↔
      e s.timeline "SetStartTimecode" [a] = .error err) ∧
    ((Timeline.get_start_timecode e s).1 = .error err ↔
      e s.timeline "GetStartTimecode" [] = .error err) ∧
    ((Timeline.insert_fusion_composition_into_timeline e s).1 = .error err ↔
      e s.timeline "InsertFusionCompositionIntoTimeline" [] = .error err) ∧
    ((Timeline.get_unique_id e s).1 = .error err ↔
      e s.timeline "GetUniqueId" [] = .error err) ∧
    ((Timeline.repr e s).1 = .error err ↔
      e s.timeline "GetName" [] = .error err) ∧
    ((MediaStorage.init e a).1 = .error err ↔
      e a "GetMediaStorage" [] = .error err) ∧
    ((MediaStorage.add_clip_mattes_to_media_pool e ms mpi a b).1 = .error err ↔
      e ms.media_storage "AddClipMattesToMediaPool" [mpi.toPyVal, a, b] = .error err) ∧
    (e ms.media_storage "AddItemListToMediaPool" [a] = .error err →
      (MediaStorage.add_item_list_to_meida_pool e ms a).1 = .error err) ∧
    (e ms.media_storage "AddItemListToMediaPool" [a] = .ok (.pyList xs) →
      (MediaStorage.add_item_list_to_meida_pool e ms a).1 = .ok (xs.map MediaPoolItem.mk)) ∧
    (e ms.media_storage "AddTimelineMattesToMediaPool" [a] = .error err →
      (MediaStorage.add_timeline_mattes_to_media_pool e ms a).1 = .error err) ∧
    (e ms.media_storage "AddTimelineMattesToMediaPool" [a] = .ok (.pyList xs) →
      (MediaStorage.add_timeline_mattes_to_media_pool e ms a).1 = .ok (xs.map MediaPoolItem.mk)) ∧
    ((MediaStorage.get_file_list e ms a).1 = .error err ↔
      e ms.media_storage "GetFileList" [pyStr a] = .error err) ∧
    ((MediaStorage.get_mounted_volume_list e ms).1 = .error err ↔
      e ms.media_storage "GetMountedVolumeList" [] = .error err) ∧
    ((MediaStorage.get_sub_folder_list e ms a).1 = .error err ↔
      e ms.media_storage "GetSubFolderList" [pyStr a] = .error err) ∧
    ((MediaStorage.reveal_in_storage e ms a).1 = .error err ↔
      e ms.media_storage "RevealInStorage" [pyStr a] = .error err) :=
  fun e s ms a b c d f g tt items o mpi err xs =>
  ⟨Iff.rfl, Iff.rfl,
   except_map_error_iff _ _ err, except_map_error_iff _ _ err,
   Iff.rfl, Iff.rfl, Iff.rfl,
   except_map_error_iff _ _ err,
   Iff.rfl, Iff.rfl, Iff.rfl,
   except_map_error_iff _ _ err,
   Iff.rfl,
   fun h => by simp [Timeline.get_item_list_in_track, h, pyIterate],
   fun h => by simp [Timeline.get_item_list_in_track, h, pyIterate],
   Iff.rfl, Iff.rfl, Iff.rfl, Iff.rfl, Iff.rfl, Iff.rfl, Iff.rfl, Iff.rfl,
   fun h => by simp [Timeline.grab_all_stills, h, pyIterate],
   fun h => by simp [Timeline.grab_all_stills, h, pyIterate],
   except_map_error_iff _ _ err,
   Iff.rfl,
   except_map_error_iff _ _ err, except_map_error_iff _ _ err,
   except_map_error_iff _ _ err, except_map_error_iff _ _ err,
   except_map_error_iff _ _ err,
   Iff.rfl, Iff.rfl, Iff.rfl, Iff.rfl, Iff.rfl, Iff.rfl, Iff.rfl,
   except_map_error_iff _ _ err,
   Iff.rfl,
   except_map_error_iff _ _ err,
   except_map_error_iff _ _ err,
   Iff.rfl,
   fun h => by simp [MediaStorage.add_item_list_to_meida_pool, h, pyIterate],
   fun h => by simp [MediaStorage.add_item_list_to_meida_pool, h, pyIterate],
   fun h => by simp [MediaStorage.add_timeline_mattes_to_media_pool, h, pyIterate],
   fun h => by simp [MediaStorage.add_timeline_mattes_to_media_pool, h, pyIterate],
   Iff.rfl, Iff.rfl, Iff.rfl, Iff.rfl⟩

/-- C4 witness: the implication conjuncts of the theorem discharged at a
concrete engine — on an engine whose listed operation returns a two-element
list, `get_item_list_in_track` raises nothing and returns the wrapped
elements. -/
theorem c4_exceptions_propagate_unchanged_witness :
    engItemList (Timeline.mk (.handle 1)).timeline "GetItemListInTrack"
      [.str TrackType.VIDEO_TRACK.value, .int 1] = .ok (.pyList [.handle 3, .handle 4]) ∧
    (Timeline.get_item_list_in_track engItemList (Timeline.mk (.handle 1))
        .VIDEO_TRACK (.int 1)).1 =
      .ok ([PyVal.handle 3, PyVal.handle 4].map TimelineItem.mk) :=
  ⟨rfl,
   (((((((((((((((c4_exceptions_propagate_unchanged engItemList (Timeline.mk (.handle 1))
      (MediaStorage.mk (.handle 2)) (.int 1) .none .none .none .none .none
      .VIDEO_TRACK [] {} (MediaPoolItem.mk (.handle 6)) .none
      [.handle 3, .handle 4]).2).2).2).2).2).2).2).2).2).2).2).2).2).2).1 rfl⟩

end Pybmd
